import Mathlib

/-!
Shallow embedding of `plugins/modules/proxysql_galera_hostgroups.py` from the
`community.proxysql` Ansible collection.

The module manages a single row of the ProxySQL admin table
`mysql_galera_hostgroups`, keyed by `writer_hostgroup`.  We model:

* the table as a `List GaleraRow` (rows in insertion order; `SELECT ... WHERE
  writer_hostgroup = %s` with `fetchone` is `List.find?`, `count(*)` is
  `List.countP`, `DELETE` is `List.filter`, `UPDATE` is `List.map`);
* the module parameters after Ansible type coercion as `GaleraParams`
  (all hostgroup ids are `int`, hence `Int`; `comment` is `Option String`
  because an explicitly-null parameter reaches the module as Python `None`,
  which is why the insert path guards with `self.comment or ''`);
* the observable side effects of a run in a `Db` record: the table itself,
  whether `mysql_connect` was reached, the list of executed
  INSERT/UPDATE/DELETE statements, and how many times `save_config_to_disk`
  and `load_config_to_runtime` ran.

Every function below mirrors one Python function of the source file and keeps
its name.
-/

namespace ProxysqlGalera

/-- The `state` module parameter: `present` or `absent`. -/
inductive PState where
  | present
  | absent
deriving DecidableEq, Repr

/-- Module parameters, after `AnsibleModule` argument-spec coercion.  The nine
table-shaped parameters are the ones `ProxySQLGaleraHostgroup.__init__` copies
from `module.params`; `save_to_disk` / `load_to_runtime` drive
`manage_config`. -/
structure GaleraParams where
  writer_hostgroup : Int
  backup_writer_hostgroup : Int
  reader_hostgroup : Int
  offline_hostgroup : Int
  active : Int
  max_writers : Int
  writer_is_also_reader : Int
  max_transactions_behind : Int
  comment : Option String
  state : PState
  save_to_disk : Bool
  load_to_runtime : Bool
deriving DecidableEq, Repr

/-- One row of `mysql_galera_hostgroups`.  `comment` is `Option String`:
`none` models SQL NULL (Python `None` through the DictCursor). -/
structure GaleraRow where
  writer_hostgroup : Int
  backup_writer_hostgroup : Int
  reader_hostgroup : Int
  offline_hostgroup : Int
  active : Int
  max_writers : Int
  writer_is_also_reader : Int
  max_transactions_behind : Int
  comment : Option String
deriving DecidableEq, Repr

/-- The kinds of data-modifying SQL statements the module can execute. -/
inductive DmlOp where
  | insertRow
  | updateCommentOp
  | updateReaderOp
  | deleteRow
deriving DecidableEq, Repr

/-- Observable database-side state of a run: current table contents, whether
`mysql_connect` has happened, the DML statements executed so far (in order),
and how many times the config was saved to disk / loaded to runtime. -/
structure Db where
  table : List GaleraRow
  connected : Bool
  dml : List DmlOp
  saves : Nat
  loads : Nat
deriving DecidableEq, Repr

/-- The WHERE clause `writer_hostgroup = %s` used by every query of the
module, as a row predicate. -/
def matchesWriter (p : GaleraParams) (r : GaleraRow) : Bool :=
  r.writer_hostgroup = p.writer_hostgroup

/-- Python truthiness of the `comment` parameter: `None` and `""` are falsy. -/
def pyTruthy (c : Option String) : Bool :=
  match c with
  | none => false
  | some s => s ≠ ""

/-- The expression `self.comment or ''` from `create_galera_group_config`. -/
def pyOrEmpty (c : Option String) : String :=
  if pyTruthy c then c.getD "" else ""

/-- `check_galera_group_config`: `SELECT count(*) ... WHERE writer_hostgroup
= %s`, then `count > 0`. -/
def check_galera_group_config (p : GaleraParams) (t : List GaleraRow) : Bool :=
  0 < t.countP (matchesWriter p)

/-- `get_galera_group_config`: `SELECT * ... WHERE writer_hostgroup = %s` with
`fetchone` — the first matching row, if any. -/
def get_galera_group_config (p : GaleraParams) (t : List GaleraRow) :
    Option GaleraRow :=
  t.find? (matchesWriter p)

/-- The row inserted by `create_galera_group_config`: every column comes from
the like-named parameter, except that a falsy comment is stored as `''`. -/
def newGaleraRow (p : GaleraParams) : GaleraRow :=
  { writer_hostgroup := p.writer_hostgroup
    backup_writer_hostgroup := p.backup_writer_hostgroup
    reader_hostgroup := p.reader_hostgroup
    offline_hostgroup := p.offline_hostgroup
    active := p.active
    max_writers := p.max_writers
    writer_is_also_reader := p.writer_is_also_reader
    max_transactions_behind := p.max_transactions_behind
    comment := some (pyOrEmpty p.comment) }

/-- `create_galera_group_config`: the INSERT statement (the Python function
also returns `True`, which the caller assigns to `result['changed']`). -/
def create_galera_group_config (p : GaleraParams) (db : Db) : Db :=
  { db with table := db.table ++ [newGaleraRow p]
            dml := db.dml ++ [DmlOp.insertRow] }

/-- `delete_galera_group_config`: `DELETE ... WHERE writer_hostgroup = %s`. -/
def delete_galera_group_config (p : GaleraParams) (db : Db) : Db :=
  { db with table := db.table.filter (fun r => ! matchesWriter p r)
            dml := db.dml ++ [DmlOp.deleteRow] }

/-- Effect of the `update_comment` UPDATE statement on one row. -/
def commentFix (p : GaleraParams) (r : GaleraRow) : GaleraRow :=
  if matchesWriter p r then { r with comment := p.comment } else r

/-- Effect of the `update_reader_hostgroup` UPDATE statement on one row. -/
def readerFix (p : GaleraParams) (r : GaleraRow) : GaleraRow :=
  if matchesWriter p r then { r with reader_hostgroup := p.reader_hostgroup } else r

/-- `update_comment`: `UPDATE ... SET comment = %s WHERE writer_hostgroup
= %s`. -/
def update_comment (p : GaleraParams) (db : Db) : Db :=
  { db with table := db.table.map (commentFix p)
            dml := db.dml ++ [DmlOp.updateCommentOp] }

/-- `update_reader_hostgroup`: `UPDATE ... SET reader_hostgroup = %s WHERE
writer_hostgroup = %s`. -/
def update_reader_hostgroup (p : GaleraParams) (db : Db) : Db :=
  { db with table := db.table.map (readerFix p)
            dml := db.dml ++ [DmlOp.updateReaderOp] }

/-- `manage_config`: when `state` (the just-computed `changed` flag) is truthy
and check mode is off, save to disk and/or load to runtime per the flags. -/
def manage_config (p : GaleraParams) (check_mode : Bool) (state : Bool)
    (db : Db) : Db :=
  if state = true ∧ check_mode = false then
    let db1 := if p.save_to_disk then { db with saves := db.saves + 1 } else db
    if p.load_to_runtime then { db1 with loads := db1.loads + 1 } else db1
  else db

/-- The `result` dictionary of `main`.  `msg` and `galera_group` start out
absent (`none`); `galera_group` holds the value of a `fetchone`, itself an
`Option`. -/
structure RunResult where
  state : PState
  changed : Bool
  msg : Option String
  galera_group : Option (Option GaleraRow)
deriving DecidableEq, Repr

def addedMsg : String := "Added server to mysql_hosts"

def addedCheckModeMsg : String :=
  "Galera group would have been added to mysql_galera_hostgroups, however check_mode is enabled."

def updatedMsg : String := "Updated galera hostgroups"

def updatedCheckModeMsg : String := "Updated galera hostgroups in check_mode"

def deletedMsg : String := "Deleted server from mysql_hosts"

def deletedCheckModeMsg : String :=
  "Galera group would have been deleted from mysql_galera_hostgroups, however check_mode is enabled."

def alreadyAbsentMsg : String :=
  "The galera group is already absent from the mysql_galera_hostgroups memory configuration"

/-- `create_galera_group`: insert the row (unless in check mode), set
`changed`/`msg`/`galera_group`, then `manage_config`. -/
def create_galera_group (p : GaleraParams) (check_mode : Bool)
    (r : RunResult) (db : Db) : RunResult × Db :=
  if check_mode = false then
    let db1 := create_galera_group_config p db
    let r1 := { r with changed := true
                       msg := some addedMsg
                       galera_group := some (get_galera_group_config p db1.table) }
    (r1, manage_config p check_mode r1.changed db1)
  else
    ({ r with changed := true, msg := some addedCheckModeMsg }, db)

/-- `update_galera_group`: fetch the current row once, then bring `comment`
and `reader_hostgroup` in line when they differ (only those two columns),
refresh `galera_group`, and `manage_config`.  The `none` branch of the fetch
is unreachable in `main` (guarded by `check_galera_group_config`); in Python
it would raise on `None.get`. -/
def update_galera_group (p : GaleraParams) (check_mode : Bool)
    (r : RunResult) (db : Db) : RunResult × Db :=
  match get_galera_group_config p db.table with
  | none => (r, db)
  | some current =>
    let step1 : RunResult × Db :=
      if current.comment ≠ p.comment then
        let ra := { r with changed := true, msg := some updatedCheckModeMsg }
        if check_mode = false then
          ({ ra with msg := some updatedMsg }, update_comment p db)
        else (ra, db)
      else (r, db)
    let step2 : RunResult × Db :=
      if current.reader_hostgroup ≠ p.reader_hostgroup then
        let rb := { step1.1 with changed := true, msg := some updatedCheckModeMsg }
        if check_mode = false then
          ({ rb with msg := some updatedMsg }, update_reader_hostgroup p step1.2)
        else (rb, step1.2)
      else step1
    let r2 := { step2.1 with
                  galera_group := some (get_galera_group_config p step2.2.table) }
    (r2, manage_config p check_mode r2.changed step2.2)

/-- `delete_galera_group`: record the row, delete it (unless in check mode),
then `manage_config`. -/
def delete_galera_group (p : GaleraParams) (check_mode : Bool)
    (r : RunResult) (db : Db) : RunResult × Db :=
  if check_mode = false then
    let r1 := { r with galera_group := some (get_galera_group_config p db.table) }
    let db1 := delete_galera_group_config p db
    let r2 := { r1 with changed := true, msg := some deletedMsg }
    (r2, manage_config p check_mode r2.changed db1)
  else
    ({ r with changed := true, msg := some deletedCheckModeMsg }, db)

def writerHostgroupMsg : String :=
  "writer_hostgroup must be a integer greater than or equal to 0"

def readerHostgroupMsg : String :=
  "reader_hostgroup must be an integer greater than or equal to 0"

def differentHostgroupsMsg : String :=
  "reader_hostgroup and writer_hostgroup must be different integer values"

/-- `perform_checks`: the three value checks the module runs before touching
the database; `some msg` models `module.fail_json(msg=...)`. -/
def perform_checks (p : GaleraParams) : Option String :=
  if ¬ (p.writer_hostgroup ≥ 0) then some writerHostgroupMsg
  else if p.reader_hostgroup < 0 then some readerHostgroupMsg
  else if p.reader_hostgroup = p.writer_hostgroup then some differentHostgroupsMsg
  else none

/-- Outcome of a run of `main`: either `module.fail_json` with a message, or
`module.exit_json(**result)`.  Both carry the final database state. -/
inductive RunOutcome where
  | failed (msg : String) (db : Db)
  | ok (result : RunResult) (db : Db)
deriving DecidableEq, Repr

/-- The final database state of an outcome. -/
def RunOutcome.finalDb : RunOutcome → Db
  | .failed _ db => db
  | .ok _ db => db

/-- Database state before `mysql_connect` is attempted. -/
def initDb (table : List GaleraRow) : Db :=
  { table := table, connected := false, dml := [], saves := 0, loads := 0 }

/-- Database state right after `mysql_connect` succeeds. -/
def connectedDb (table : List GaleraRow) : Db :=
  { initDb table with connected := true }

/-- The initial `result` dictionary built in `main` before dispatching. -/
def initResult (p : GaleraParams) : RunResult :=
  { state := p.state, changed := false, msg := none, galera_group := none }

/-- `main`: validate, connect, dispatch on `state` and row existence.
`table` is the starting contents of `mysql_galera_hostgroups`. -/
def main_run (p : GaleraParams) (check_mode : Bool) (table : List GaleraRow) :
    RunOutcome :=
  match perform_checks p with
  | some m => .failed m (initDb table)
  | none =>
    let db : Db := connectedDb table
    let r0 : RunResult := initResult p
    match p.state with
    | .present =>
      if check_galera_group_config p db.table then
        let step := update_galera_group p check_mode r0 db
        let r2 := { step.1 with
                      galera_group := some (get_galera_group_config p step.2.table) }
        .ok r2 step.2
      else
        let step := create_galera_group p check_mode r0 db
        .ok step.1 step.2
    | .absent =>
      if check_galera_group_config p db.table then
        let step := delete_galera_group p check_mode r0 db
        .ok step.1 step.2
      else
        .ok { r0 with changed := false, msg := some alreadyAbsentMsg } db

/-- The matched row after `update_galera_group` has run outside check mode:
`comment` and `reader_hostgroup` are forced to the parameters, every other
column keeps the value the existing row already had. -/
def syncedRow (p : GaleraParams) (c : GaleraRow) : GaleraRow :=
  { c with comment := p.comment, reader_hostgroup := p.reader_hostgroup }

/-- Whether `update_galera_group` reports a change for current row `c`. -/
def updChanged (p : GaleraParams) (c : GaleraRow) : Bool :=
  decide (c.comment ≠ p.comment) || decide (c.reader_hostgroup ≠ p.reader_hostgroup)

/-- Table contents after the (at most two) UPDATE statements of
`update_galera_group`, run outside check mode against current row `c`. -/
def updatedTable (p : GaleraParams) (c : GaleraRow) (t : List GaleraRow) :
    List GaleraRow :=
  let t1 := if c.comment ≠ p.comment then t.map (commentFix p) else t
  if c.reader_hostgroup ≠ p.reader_hostgroup then t1.map (readerFix p) else t1

/-- DML statements executed by `update_galera_group` outside check mode. -/
def updatedDml (p : GaleraParams) (c : GaleraRow) : List DmlOp :=
  (if c.comment ≠ p.comment then [DmlOp.updateCommentOp] else []) ++
    (if c.reader_hostgroup ≠ p.reader_hostgroup then [DmlOp.updateReaderOp] else [])

/-- The `changed` flag of an outcome (`false` for a failed run, which never
reaches `result['changed']`). -/
def RunOutcome.changedFlag : RunOutcome → Bool
  | .failed _ _ => false
  | .ok r _ => r.changed

/-! ### Concrete instances used by witnesses and counterexamples -/

/-- A well-formed parameter set: add writer hostgroup 1 paired with reader
hostgroup 2. -/
def pBase : GaleraParams :=
  { writer_hostgroup := 1, backup_writer_hostgroup := 3, reader_hostgroup := 2,
    offline_hostgroup := 4, active := 1, max_writers := 1,
    writer_is_also_reader := 0, max_transactions_behind := 100,
    comment := some "c", state := PState.present, save_to_disk := true,
    load_to_runtime := true }

/-- The row `pBase` inserts. -/
def rowBase : GaleraRow := newGaleraRow pBase

/-- Database state after running `pBase` against an empty table. -/
def dbIns : Db :=
  { table := [rowBase], connected := true, dml := [DmlOp.insertRow],
    saves := 1, loads := 1 }

/-- Module result after running `pBase` against an empty table. -/
def resIns : RunResult :=
  { state := PState.present, changed := true, msg := some addedMsg,
    galera_group := some (some rowBase) }

/-- An existing row for writer hostgroup 1 whose backup hostgroup, reader
hostgroup and comment all differ from what `pBase` declares. -/
def rowOld : GaleraRow :=
  { rowBase with backup_writer_hostgroup := 42, reader_hostgroup := 9,
                 comment := some "old" }

/-- Parameters identical to `pBase` except for the comment; they declare
backup writer hostgroup 3 while `rowDrift` already stores 99. -/
def pDrift : GaleraParams := { pBase with comment := some "x" }

/-- A row for writer hostgroup 1 that already agrees with `pDrift` on
`comment` and `reader_hostgroup` but stores a different
`backup_writer_hostgroup`. -/
def rowDrift : GaleraRow := { newGaleraRow pDrift with backup_writer_hostgroup := 99 }

/-- Parameters whose `comment` is Python `None` (an explicit `comment: null`
in the playbook). -/
def pNullComment : GaleraParams := { pBase with comment := none }

/-- Parameters with a negative writer hostgroup, rejected by
`perform_checks`. -/
def pNegWriter : GaleraParams := { pBase with writer_hostgroup := -1 }

/-- `rowOld` after the module has updated its comment and reader hostgroup. -/
def rowOldSynced : GaleraRow := syncedRow pBase rowOld

/-- Database state after running `pBase` against a table holding `rowOld`. -/
def dbUpd : Db :=
  { table := [rowOldSynced], connected := true,
    dml := [DmlOp.updateCommentOp, DmlOp.updateReaderOp], saves := 1, loads := 1 }

/-- Module result after running `pBase` against a table holding `rowOld`. -/
def resUpd : RunResult :=
  { state := PState.present, changed := true, msg := some updatedMsg,
    galera_group := some (some rowOldSynced) }

/-! ### Generic list lemmas used by the run characterizations -/

theorem countP_map_of_pres (q : GaleraRow → Bool) (f : GaleraRow → GaleraRow)
    (h : ∀ r, q (f r) = q r) (t : List GaleraRow) :
    (t.map f).countP q = t.countP q := by
  induction t with
  | nil => rfl
  | cons a t ih => simp [List.countP_cons, h, ih]

theorem find?_map_of_pres (q : GaleraRow → Bool) (f : GaleraRow → GaleraRow)
    (h : ∀ r, q (f r) = q r) (t : List GaleraRow) :
    (t.map f).find? q = (t.find? q).map f := by
  induction t with
  | nil => rfl
  | cons a t ih =>
    cases hqa : q a with
    | false =>
      rw [List.map_cons, List.find?_cons_of_neg _ (by simp [h, hqa]),
        List.find?_cons_of_neg _ (by simp [hqa]), ih]
    | true =>
      rw [List.map_cons, List.find?_cons_of_pos _ (by simp [h, hqa]),
        List.find?_cons_of_pos _ (by simp [hqa]), Option.map_some']

theorem find?_append_of_none (q : GaleraRow → Bool) (t s : List GaleraRow)
    (h : t.find? q = none) : (t ++ s).find? q = s.find? q := by
  induction t with
  | nil => rfl
  | cons a t ih =>
    cases hqa : q a with
    | false =>
      rw [List.find?_cons_of_neg _ (by simp [hqa])] at h
      rw [List.cons_append, List.find?_cons_of_neg _ (by simp [hqa]), ih h]
    | true =>
      rw [List.find?_cons_of_pos _ (by simp [hqa])] at h
      exact absurd h (by simp)

theorem countP_filter_not (q : GaleraRow → Bool) (t : List GaleraRow) :
    (t.filter (fun a => ! q a)).countP q = 0 := by
  induction t with
  | nil => rfl
  | cons a t ih => cases hqa : q a <;> simp [List.filter_cons, hqa, List.countP_cons, ih]

theorem filter_not_map_of_fix (q : GaleraRow → Bool) (f : GaleraRow → GaleraRow)
    (hpres : ∀ r, q (f r) = q r) (hid : ∀ r, q r = false → f r = r)
    (t : List GaleraRow) :
    (t.map f).filter (fun a => ! q a) = t.filter (fun a => ! q a) := by
  induction t with
  | nil => rfl
  | cons a t ih =>
    cases hqa : q a with
    | false => simp [List.filter_cons, hpres, hqa, hid a hqa, ih]
    | true => simp [List.filter_cons, hpres, hqa, ih]

theorem filter_not_append_of_match (q : GaleraRow → Bool) (t : List GaleraRow)
    (x : GaleraRow) (hx : q x = true) :
    (t ++ [x]).filter (fun a => ! q a) = t.filter (fun a => ! q a) := by
  simp [List.filter_append, List.filter_cons, hx]

theorem filter_not_idem (q : GaleraRow → Bool) (t : List GaleraRow) :
    (t.filter (fun a => ! q a)).filter (fun a => ! q a)
      = t.filter (fun a => ! q a) := by
  induction t with
  | nil => rfl
  | cons a t ih => cases hqa : q a <;> simp [List.filter_cons, hqa, ih]

/-! ### Facts linking the row-existence check, the fetch and the row fixes -/

theorem check_eq_false_iff (p : GaleraParams) (t : List GaleraRow) :
    check_galera_group_config p t = false ↔ get_galera_group_config p t = none := by
  simp [check_galera_group_config, get_galera_group_config, List.countP_pos_iff,
    List.find?_eq_none]

theorem check_of_get_some (p : GaleraParams) (t : List GaleraRow) (c : GaleraRow)
    (h : get_galera_group_config p t = some c) :
    check_galera_group_config p t = true := by
  by_contra hc
  rw [Bool.not_eq_true, check_eq_false_iff] at hc
  rw [h] at hc
  exact Option.noConfusion hc

theorem get_some_matches (p : GaleraParams) (t : List GaleraRow) (c : GaleraRow)
    (h : get_galera_group_config p t = some c) : matchesWriter p c = true :=
  List.find?_some h

theorem matchesWriter_commentFix (p : GaleraParams) (r : GaleraRow) :
    matchesWriter p (commentFix p r) = matchesWriter p r := by
  unfold commentFix
  split <;> rfl

theorem matchesWriter_readerFix (p : GaleraParams) (r : GaleraRow) :
    matchesWriter p (readerFix p r) = matchesWriter p r := by
  unfold readerFix
  split <;> rfl

theorem commentFix_of_not_match (p : GaleraParams) (r : GaleraRow)
    (h : matchesWriter p r = false) : commentFix p r = r := by
  simp [commentFix, h]

theorem readerFix_of_not_match (p : GaleraParams) (r : GaleraRow)
    (h : matchesWriter p r = false) : readerFix p r = r := by
  simp [readerFix, h]

theorem matchesWriter_newGaleraRow (p : GaleraParams) :
    matchesWriter p (newGaleraRow p) = true := by
  simp [matchesWriter, newGaleraRow]

theorem check_append_new (p : GaleraParams) (t : List GaleraRow) :
    check_galera_group_config p (t ++ [newGaleraRow p]) = true := by
  simp [check_galera_group_config, List.countP_append, List.countP_cons,
    matchesWriter_newGaleraRow]

theorem get_append_new_of_not_exists (p : GaleraParams) (t : List GaleraRow)
    (h : check_galera_group_config p t = false) :
    get_galera_group_config p (t ++ [newGaleraRow p]) = some (newGaleraRow p) := by
  have hn : get_galera_group_config p t = none := (check_eq_false_iff p t).1 h
  unfold get_galera_group_config at *
  rw [find?_append_of_none _ _ _ hn,
    List.find?_cons_of_pos _ (by simp [matchesWriter_newGaleraRow])]

theorem get_map_commentFix (p : GaleraParams) (t : List GaleraRow) :
    get_galera_group_config p (t.map (commentFix p))
      = (get_galera_group_config p t).map (commentFix p) :=
  find?_map_of_pres _ _ (matchesWriter_commentFix p) t

theorem get_map_readerFix (p : GaleraParams) (t : List GaleraRow) :
    get_galera_group_config p (t.map (readerFix p))
      = (get_galera_group_config p t).map (readerFix p) :=
  find?_map_of_pres _ _ (matchesWriter_readerFix p) t

theorem matchesWriter_setComment (p : GaleraParams) (c : GaleraRow)
    (x : Option String) :
    matchesWriter p { c with comment := x } = matchesWriter p c := rfl

theorem matchesWriter_setReader (p : GaleraParams) (c : GaleraRow) (x : Int) :
    matchesWriter p { c with reader_hostgroup := x } = matchesWriter p c := rfl

theorem get_updatedTable (p : GaleraParams) (t : List GaleraRow) (c : GaleraRow)
    (hfind : get_galera_group_config p t = some c) :
    get_galera_group_config p (updatedTable p c t) = some (syncedRow p c) := by
  have hmw := get_some_matches p t c hfind
  simp only [updatedTable, syncedRow]
  by_cases hc : c.comment = p.comment <;>
    by_cases hr : c.reader_hostgroup = p.reader_hostgroup
  · rw [if_neg (fun h => h hr), if_neg (fun h => h hc), hfind, ← hc, ← hr]
  · rw [if_pos hr, if_neg (fun h => h hc), get_map_readerFix, hfind,
      Option.map_some']
    simp [readerFix, hmw, ← hc]
  · rw [if_neg (fun h => h hr), if_pos hc, get_map_commentFix, hfind,
      Option.map_some']
    simp [commentFix, hmw, ← hr]
  · rw [if_pos hr, if_pos hc, get_map_readerFix, get_map_commentFix, hfind,
      Option.map_some', Option.map_some']
    simp [readerFix, commentFix, hmw, matchesWriter_setComment]

/-! ### Characterizations of `main_run`, one per control-flow branch -/

theorem run_failed (p : GaleraParams) (cm : Bool) (table : List GaleraRow)
    (m : String) (h : perform_checks p = some m) :
    main_run p cm table = RunOutcome.failed m
      { table := table, connected := false, dml := [], saves := 0, loads := 0 } := by
  simp [main_run, h, initDb]

theorem run_absent_none (p : GaleraParams) (cm : Bool) (table : List GaleraRow)
    (hpc : perform_checks p = none) (hst : p.state = PState.absent)
    (hex : check_galera_group_config p table = false) :
    main_run p cm table = RunOutcome.ok
      { state := PState.absent, changed := false, msg := some alreadyAbsentMsg,
        galera_group := none }
      { table := table, connected := true, dml := [], saves := 0, loads := 0 } := by
  simp [main_run, hpc, hst, hex, initDb, connectedDb, initResult]

theorem run_present_new (p : GaleraParams) (table : List GaleraRow)
    (hpc : perform_checks p = none) (hst : p.state = PState.present)
    (hex : check_galera_group_config p table = false) :
    main_run p false table = RunOutcome.ok
      { state := PState.present, changed := true, msg := some addedMsg,
        galera_group := some (some (newGaleraRow p)) }
      { table := table ++ [newGaleraRow p], connected := true,
        dml := [DmlOp.insertRow],
        saves := if p.save_to_disk then 1 else 0,
        loads := if p.load_to_runtime then 1 else 0 } := by
  have hget := get_append_new_of_not_exists p table hex
  cases hs : p.save_to_disk <;> cases hl : p.load_to_runtime <;>
    simp [main_run, hpc, hst, hex, create_galera_group, create_galera_group_config,
      manage_config, hget, hs, hl, initDb, connectedDb, initResult]

theorem run_present_new_check (p : GaleraParams) (table : List GaleraRow)
    (hpc : perform_checks p = none) (hst : p.state = PState.present)
    (hex : check_galera_group_config p table = false) :
    main_run p true table = RunOutcome.ok
      { state := PState.present, changed := true, msg := some addedCheckModeMsg,
        galera_group := none }
      { table := table, connected := true, dml := [], saves := 0, loads := 0 } := by
  simp [main_run, hpc, hst, hex, create_galera_group, initDb, connectedDb, initResult]

theorem run_absent_del (p : GaleraParams) (table : List GaleraRow)
    (hpc : perform_checks p = none) (hst : p.state = PState.absent)
    (hex : check_galera_group_config p table = true) :
    main_run p false table = RunOutcome.ok
      { state := PState.absent, changed := true, msg := some deletedMsg,
        galera_group := some (get_galera_group_config p table) }
      { table := table.filter (fun r => ! matchesWriter p r), connected := true,
        dml := [DmlOp.deleteRow],
        saves := if p.save_to_disk then 1 else 0,
        loads := if p.load_to_runtime then 1 else 0 } := by
  cases hs : p.save_to_disk <;> cases hl : p.load_to_runtime <;>
    simp [main_run, hpc, hst, hex, delete_galera_group, delete_galera_group_config,
      manage_config, hs, hl, initDb, connectedDb, initResult]

theorem run_absent_del_check (p : GaleraParams) (table : List GaleraRow)
    (hpc : perform_checks p = none) (hst : p.state = PState.absent)
    (hex : check_galera_group_config p table = true) :
    main_run p true table = RunOutcome.ok
      { state := PState.absent, changed := true, msg := some deletedCheckModeMsg,
        galera_group := none }
      { table := table, connected := true, dml := [], saves := 0, loads := 0 } := by
  simp [main_run, hpc, hst, hex, delete_galera_group, initDb, connectedDb, initResult]

theorem manage_config_not_changed (p : GaleraParams) (cm : Bool) (db : Db) :
    manage_config p cm false db = db := by
  simp [manage_config]

theorem manage_config_check (p : GaleraParams) (s : Bool) (db : Db) :
    manage_config p true s db = db := by
  simp [manage_config]

theorem manage_config_run (p : GaleraParams) (db : Db) :
    manage_config p false true db =
      { db with saves := db.saves + (if p.save_to_disk then 1 else 0),
                loads := db.loads + (if p.load_to_runtime then 1 else 0) } := by
  cases hs : p.save_to_disk <;> cases hl : p.load_to_runtime <;>
    simp [manage_config, hs, hl]

theorem update_run_nochange (p : GaleraParams) (r0 : RunResult) (db : Db)
    (c : GaleraRow)
    (hfind : get_galera_group_config p db.table = some c)
    (hc : c.comment = p.comment) (hr : c.reader_hostgroup = p.reader_hostgroup) :
    update_galera_group p false r0 db =
      ({ r0 with galera_group := some (some c) },
       manage_config p false r0.changed db) := by
  unfold update_galera_group
  rw [hfind]
  simp only [ne_eq, hc, hr, not_true_eq_false, if_false, ite_false, hfind]

theorem update_run_comment_only (p : GaleraParams) (r0 : RunResult) (db : Db)
    (c : GaleraRow)
    (hfind : get_galera_group_config p db.table = some c)
    (hc : ¬ c.comment = p.comment) (hr : c.reader_hostgroup = p.reader_hostgroup) :
    update_galera_group p false r0 db =
      ({ r0 with changed := true, msg := some updatedMsg,
                 galera_group := some (some (syncedRow p c)) },
       manage_config p false true (update_comment p db)) := by
  have hmw := get_some_matches p db.table c hfind
  unfold update_galera_group
  rw [hfind]
  simp only [ne_eq, hc, hr, not_true_eq_false, not_false_eq_true, if_true,
    ite_true, if_false, ite_false, update_comment, get_map_commentFix, hfind,
    Option.map_some', syncedRow]
  simp [commentFix, hmw, ← hr]

theorem update_run_reader_only (p : GaleraParams) (r0 : RunResult) (db : Db)
    (c : GaleraRow)
    (hfind : get_galera_group_config p db.table = some c)
    (hc : c.comment = p.comment) (hr : ¬ c.reader_hostgroup = p.reader_hostgroup) :
    update_galera_group p false r0 db =
      ({ r0 with changed := true, msg := some updatedMsg,
                 galera_group := some (some (syncedRow p c)) },
       manage_config p false true (update_reader_hostgroup p db)) := by
  have hmw := get_some_matches p db.table c hfind
  unfold update_galera_group
  rw [hfind]
  simp only [ne_eq, hc, hr, not_true_eq_false, not_false_eq_true, if_true,
    ite_true, if_false, ite_false, update_reader_hostgroup, get_map_readerFix,
    hfind, Option.map_some', syncedRow]
  simp [readerFix, hmw, ← hc]

theorem update_run_both (p : GaleraParams) (r0 : RunResult) (db : Db)
    (c : GaleraRow)
    (hfind : get_galera_group_config p db.table = some c)
    (hc : ¬ c.comment = p.comment) (hr : ¬ c.reader_hostgroup = p.reader_hostgroup) :
    update_galera_group p false r0 db =
      ({ r0 with changed := true, msg := some updatedMsg,
                 galera_group := some (some (syncedRow p c)) },
       manage_config p false true
         (update_reader_hostgroup p (update_comment p db))) := by
  have hmw := get_some_matches p db.table c hfind
  unfold update_galera_group
  rw [hfind]
  simp only [ne_eq, hc, hr, not_false_eq_true, if_true, ite_true,
    update_reader_hostgroup, update_comment, syncedRow]
  simp [update_reader_hostgroup, update_comment, get_map_readerFix,
    get_map_commentFix, hfind, readerFix, commentFix, hmw,
    matchesWriter_setComment]
  have hcomp : get_galera_group_config p
        (db.table.map (readerFix p ∘ commentFix p))
      = (get_galera_group_config p db.table).map (readerFix p ∘ commentFix p) :=
    find?_map_of_pres _ _
      (fun r => by
        simp [Function.comp, matchesWriter_readerFix, matchesWriter_commentFix]) db.table
  rw [hcomp, hfind, Option.map_some']
  simp [Function.comp, readerFix, commentFix, hmw, matchesWriter_setComment]

theorem run_present_upd (p : GaleraParams) (table : List GaleraRow) (c : GaleraRow)
    (hpc : perform_checks p = none) (hst : p.state = PState.present)
    (hfind : get_galera_group_config p table = some c) :
    main_run p false table = RunOutcome.ok
      { state := PState.present, changed := updChanged p c,
        msg := if updChanged p c then some updatedMsg else none,
        galera_group := some (some (syncedRow p c)) }
      { table := updatedTable p c table, connected := true,
        dml := updatedDml p c,
        saves := if updChanged p c = true ∧ p.save_to_disk = true then 1 else 0,
        loads := if updChanged p c = true ∧ p.load_to_runtime = true then 1 else 0 } := by
  have hex := check_of_get_some p table c hfind
  have hfc : get_galera_group_config p (connectedDb table).table = some c := hfind
  have hsync := get_updatedTable p table c hfind
  have hct : (connectedDb table).table = table := rfl
  simp only [main_run, hpc, hst, hct, hex, if_true, ite_true]
  by_cases hc : c.comment = p.comment <;>
    by_cases hr : c.reader_hostgroup = p.reader_hostgroup
  · rw [update_run_nochange p (initResult p) (connectedDb table) c hfc hc hr]
    have hch : updChanged p c = false := by simp [updChanged, hc, hr]
    simp [initResult, hst, manage_config_not_changed, connectedDb, initDb, hfind,
      hch, updatedTable, updatedDml, syncedRow, ← hc, ← hr]
  · rw [update_run_reader_only p (initResult p) (connectedDb table) c hfc hc hr]
    have hch : updChanged p c = true := by simp [updChanged, hr]
    have hsync2 : get_galera_group_config p (table.map (readerFix p))
        = some (syncedRow p c) := by
      have := hsync
      simp only [updatedTable] at this
      rw [if_pos hr, if_neg (fun h => h hc)] at this
      exact this
    simp [initResult, hst, manage_config_run, update_reader_hostgroup, connectedDb,
      initDb, hch, updatedTable, updatedDml, hc, hr, hsync2]
  · rw [update_run_comment_only p (initResult p) (connectedDb table) c hfc hc hr]
    have hch : updChanged p c = true := by simp [updChanged, hc]
    have hsync2 : get_galera_group_config p (table.map (commentFix p))
        = some (syncedRow p c) := by
      have := hsync
      simp only [updatedTable] at this
      rw [if_neg (fun h => h hr), if_pos hc] at this
      exact this
    simp [initResult, hst, manage_config_run, update_comment, connectedDb,
      initDb, hch, updatedTable, updatedDml, hc, hr, hsync2]
  · rw [update_run_both p (initResult p) (connectedDb table) c hfc hc hr]
    have hch : updChanged p c = true := by simp [updChanged, hc]
    have hsync2 : get_galera_group_config p (table.map (readerFix p ∘ commentFix p))
        = some (syncedRow p c) := by
      have := hsync
      simp only [updatedTable] at this
      rw [if_pos hr, if_pos hc, List.map_map] at this
      exact this
    simp [initResult, hst, manage_config_run, update_reader_hostgroup,
      update_comment, connectedDb, initDb, hch, updatedTable, updatedDml,
      hc, hr, hsync2]

theorem run_present_upd_check (p : GaleraParams) (table : List GaleraRow)
    (c : GaleraRow)
    (hpc : perform_checks p = none) (hst : p.state = PState.present)
    (hfind : get_galera_group_config p table = some c) :
    main_run p true table = RunOutcome.ok
      { state := PState.present, changed := updChanged p c,
        msg := if updChanged p c then some updatedCheckModeMsg else none,
        galera_group := some (some c) }
      { table := table, connected := true, dml := [], saves := 0, loads := 0 } := by
  have hex := check_of_get_some p table c hfind
  by_cases hc : c.comment = p.comment <;>
    by_cases hr : c.reader_hostgroup = p.reader_hostgroup <;>
      simp [main_run, hpc, hst, hex, connectedDb, initDb, initResult,
        update_galera_group, hfind, manage_config_check, updChanged, hc, hr]

theorem ok_implies_checks_none (p : GaleraParams) (cm : Bool)
    (table : List GaleraRow) (r : RunResult) (db : Db)
    (h : main_run p cm table = RunOutcome.ok r db) : perform_checks p = none := by
  cases hpc : perform_checks p with
  | none => rfl
  | some m =>
    rw [run_failed p cm table m hpc] at h
    exact RunOutcome.noConfusion h

theorem exists_get_of_check (p : GaleraParams) (t : List GaleraRow)
    (h : check_galera_group_config p t = true) :
    ∃ c, get_galera_group_config p t = some c := by
  cases hg : get_galera_group_config p t with
  | some c => exact ⟨c, rfl⟩
  | none =>
    rw [← check_eq_false_iff] at hg
    rw [h] at hg
    exact Bool.noConfusion hg

theorem check_filter_not (p : GaleraParams) (t : List GaleraRow) :
    check_galera_group_config p (t.filter (fun r => ! matchesWriter p r)) = false := by
  simp [check_galera_group_config, countP_filter_not]

theorem updatedTable_nochange (p : GaleraParams) (c : GaleraRow)
    (t : List GaleraRow) (hc : c.comment = p.comment)
    (hr : c.reader_hostgroup = p.reader_hostgroup) : updatedTable p c t = t := by
  simp [updatedTable, hc, hr]

theorem updatedDml_nochange (p : GaleraParams) (c : GaleraRow)
    (hc : c.comment = p.comment) (hr : c.reader_hostgroup = p.reader_hostgroup) :
    updatedDml p c = [] := by
  simp [updatedDml, hc, hr]

theorem pyOrEmpty_some (s : String) : pyOrEmpty (some s) = s := by
  by_cases h : s = "" <;> simp [pyOrEmpty, pyTruthy, h]

theorem newGaleraRow_comment_of_some (p : GaleraParams) (s : String)
    (hs : p.comment = some s) : (newGaleraRow p).comment = p.comment := by
  simp [newGaleraRow, hs, pyOrEmpty_some]

theorem filter_not_updatedTable (p : GaleraParams) (c : GaleraRow)
    (t : List GaleraRow) :
    (updatedTable p c t).filter (fun a => ! matchesWriter p a)
      = t.filter (fun a => ! matchesWriter p a) := by
  have hcf := filter_not_map_of_fix (matchesWriter p) (commentFix p)
    (matchesWriter_commentFix p) (commentFix_of_not_match p)
  have hrf := filter_not_map_of_fix (matchesWriter p) (readerFix p)
    (matchesWriter_readerFix p) (readerFix_of_not_match p)
  unfold updatedTable
  by_cases h1 : c.comment = p.comment <;>
    by_cases h2 : c.reader_hostgroup = p.reader_hostgroup
  · simp [h1, h2]
  · rw [if_pos h2, if_neg (fun h => h h1), hrf]
  · rw [if_neg (fun h => h h2), if_pos h1, hcf]
  · rw [if_pos h2, if_pos h1, hrf, hcf]

/-! ### Claim theorems -/

/-- C1: with `state=present`, the module inserts a row when none with the
given `writer_hostgroup` exists and updates the existing row otherwise; with
`state=absent`, it deletes the existing row, and when no such row exists it
leaves the table unchanged and reports `changed=False`. -/
theorem run_dispatch_by_state_and_existence (p : GaleraParams)
    (table : List GaleraRow) (r : RunResult) (db : Db)
    (h : main_run p false table = RunOutcome.ok r db) :
    (p.state = PState.present → check_galera_group_config p table = false →
      db.table = table ++ [newGaleraRow p]) ∧
    (p.state = PState.present → check_galera_group_config p table = true →
      (∃ c, get_galera_group_config p table = some c ∧
        get_galera_group_config p db.table = some (syncedRow p c)) ∧
      (∀ o ∈ db.dml, o = DmlOp.updateCommentOp ∨ o = DmlOp.updateReaderOp)) ∧
    (p.state = PState.absent → check_galera_group_config p table = true →
      db.table = table.filter (fun row => ! matchesWriter p row)) ∧
    (p.state = PState.absent → check_galera_group_config p table = false →
      db.table = table ∧ r.changed = false) := by
  have hpc := ok_implies_checks_none p false table r db h
  refine ⟨?_, ?_, ?_, ?_⟩
  · intro hst hex
    rw [run_present_new p table hpc hst hex] at h
    simp only [RunOutcome.ok.injEq] at h
    rw [← h.2]
  · intro hst hex
    obtain ⟨c, hfind⟩ := exists_get_of_check p table hex
    rw [run_present_upd p table c hpc hst hfind] at h
    simp only [RunOutcome.ok.injEq] at h
    constructor
    · refine ⟨c, hfind, ?_⟩
      rw [← h.2]
      exact get_updatedTable p table c hfind
    · intro o ho
      rw [← h.2] at ho
      simp only [updatedDml, List.mem_append] at ho
      rcases ho with ho | ho
      · by_cases hcc : c.comment ≠ p.comment
        · rw [if_pos hcc] at ho
          exact Or.inl (List.mem_singleton.mp ho)
        · rw [if_neg hcc] at ho
          exact absurd ho (List.not_mem_nil o)
      · by_cases hrr : c.reader_hostgroup ≠ p.reader_hostgroup
        · rw [if_pos hrr] at ho
          exact Or.inr (List.mem_singleton.mp ho)
        · rw [if_neg hrr] at ho
          exact absurd ho (List.not_mem_nil o)
  · intro hst hex
    rw [run_absent_del p table hpc hst hex] at h
    simp only [RunOutcome.ok.injEq] at h
    rw [← h.2]
  · intro hst hex
    rw [run_absent_none p false table hpc hst hex] at h
    simp only [RunOutcome.ok.injEq] at h
    exact ⟨by rw [← h.2], by rw [← h.1]⟩

/-- C1 witness: `pBase` against the empty table inserts its row. -/
theorem run_dispatch_by_state_and_existence_witness :
    main_run pBase false [] = RunOutcome.ok resIns dbIns ∧
    ((pBase.state = PState.present → check_galera_group_config pBase [] = false →
      dbIns.table = [] ++ [newGaleraRow pBase]) ∧
    (pBase.state = PState.present → check_galera_group_config pBase [] = true →
      (∃ c, get_galera_group_config pBase [] = some c ∧
        get_galera_group_config pBase dbIns.table = some (syncedRow pBase c)) ∧
      (∀ o ∈ dbIns.dml, o = DmlOp.updateCommentOp ∨ o = DmlOp.updateReaderOp)) ∧
    (pBase.state = PState.absent → check_galera_group_config pBase [] = true →
      dbIns.table = List.filter (fun row => ! matchesWriter pBase row) []) ∧
    (pBase.state = PState.absent → check_galera_group_config pBase [] = false →
      dbIns.table = [] ∧ resIns.changed = false)) :=
  ⟨rfl, run_dispatch_by_state_and_existence pBase [] resIns dbIns rfl⟩

/-- C2 counterexample: a pre-existing row whose `backup_writer_hostgroup`
(99) differs from the declared parameter (3) keeps its old value after the
module runs, because `update_galera_group` only ever updates `comment` and
`reader_hostgroup`. -/
theorem update_aligns_all_columns_counterexample :
    pDrift.state = PState.present ∧
    check_galera_group_config pDrift [rowDrift] = true ∧
    get_galera_group_config pDrift
        ((main_run pDrift false [rowDrift]).finalDb.table) = some rowDrift ∧
    rowDrift.backup_writer_hostgroup ≠ pDrift.backup_writer_hostgroup := by
  refine ⟨rfl, rfl, rfl, by decide⟩

/-- C2 amended: when `state=present` and a row with the given
`writer_hostgroup` exists (not in check mode), after the run that row's
`comment` and `reader_hostgroup` equal the supplied parameters, while the
remaining columns (`backup_writer_hostgroup`, `offline_hostgroup`, `active`,
`max_writers`, `writer_is_also_reader`, `max_transactions_behind`) keep the
values the existing row already had. -/
theorem update_aligns_comment_and_reader_only (p : GaleraParams)
    (table : List GaleraRow) (c : GaleraRow) (r : RunResult) (db : Db)
    (h : main_run p false table = RunOutcome.ok r db)
    (hst : p.state = PState.present)
    (hfind : get_galera_group_config p table = some c) :
    get_galera_group_config p db.table = some
      { writer_hostgroup := c.writer_hostgroup
        backup_writer_hostgroup := c.backup_writer_hostgroup
        reader_hostgroup := p.reader_hostgroup
        offline_hostgroup := c.offline_hostgroup
        active := c.active
        max_writers := c.max_writers
        writer_is_also_reader := c.writer_is_also_reader
        max_transactions_behind := c.max_transactions_behind
        comment := p.comment } := by
  have hpc := ok_implies_checks_none p false table r db h
  rw [run_present_upd p table c hpc hst hfind] at h
  simp only [RunOutcome.ok.injEq] at h
  rw [← h.2]
  exact get_updatedTable p table c hfind

/-- C2 witness: running `pBase` against a table holding `rowOld`. -/
theorem update_aligns_comment_and_reader_only_witness :
    get_galera_group_config pBase dbUpd.table = some
      { writer_hostgroup := rowOld.writer_hostgroup
        backup_writer_hostgroup := rowOld.backup_writer_hostgroup
        reader_hostgroup := pBase.reader_hostgroup
        offline_hostgroup := rowOld.offline_hostgroup
        active := rowOld.active
        max_writers := rowOld.max_writers
        writer_is_also_reader := rowOld.writer_is_also_reader
        max_transactions_behind := rowOld.max_transactions_behind
        comment := pBase.comment } :=
  update_aligns_comment_and_reader_only pBase [rowOld] rowOld resUpd dbUpd
    rfl rfl rfl

/-- C3 counterexample: with `comment` equal to Python `None`, the first run
inserts the row with comment `''` (because of `self.comment or ''`) but the
second run sees `'' != None`, reports `changed=True`, and rewrites the
comment to NULL — so running twice differs from running once. -/
theorem run_idempotent_counterexample :
    (main_run pNullComment false
        (main_run pNullComment false []).finalDb.table).changedFlag = true ∧
    (main_run pNullComment false
        (main_run pNullComment false []).finalDb.table).finalDb.table ≠
      (main_run pNullComment false []).finalDb.table ∧
    (main_run pNullComment false
        (main_run pNullComment false []).finalDb.table).finalDb.dml ≠ [] := by
  decide

/-- C3 amended: for every parameter set whose `comment` is an actual string
(not Python `None`), the module is idempotent: after a first run (not in
check mode) ends with table `db1.table`, a second run leaves the table
unchanged, executes no INSERT/UPDATE/DELETE, never saves to disk or loads to
runtime, and reports `changed=False`. -/
theorem run_idempotent_for_string_comment (p : GaleraParams)
    (table : List GaleraRow) (r1 : RunResult) (db1 : Db)
    (hcm : p.comment ≠ none)
    (h1 : main_run p false table = RunOutcome.ok r1 db1) :
    ∃ r2, main_run p false db1.table = RunOutcome.ok r2
        { table := db1.table, connected := true, dml := [], saves := 0,
          loads := 0 } ∧
      r2.changed = false := by
  have hpc := ok_implies_checks_none p false table r1 db1 h1
  obtain ⟨s, hs⟩ : ∃ s, p.comment = some s :=
    Option.ne_none_iff_exists'.mp hcm
  cases hstate : p.state with
  | present =>
    cases hex : check_galera_group_config p table with
    | false =>
      rw [run_present_new p table hpc hstate hex] at h1
      simp only [RunOutcome.ok.injEq] at h1
      have htable : db1.table = table ++ [newGaleraRow p] := by rw [← h1.2]
      have hget : get_galera_group_config p (table ++ [newGaleraRow p])
          = some (newGaleraRow p) := get_append_new_of_not_exists p table hex
      have hnc : (newGaleraRow p).comment = p.comment :=
        newGaleraRow_comment_of_some p s hs
      have hnr : (newGaleraRow p).reader_hostgroup = p.reader_hostgroup := rfl
      have hrun := run_present_upd p (table ++ [newGaleraRow p])
        (newGaleraRow p) hpc hstate hget
      have hch : updChanged p (newGaleraRow p) = false := by
        simp [updChanged, hnc, hnr]
      rw [hch, updatedTable_nochange p _ _ hnc hnr,
        updatedDml_nochange p _ hnc hnr] at hrun
      simp only [Bool.false_eq_true, false_and, if_false, ite_false] at hrun
      rw [htable]
      exact ⟨_, hrun, rfl⟩
    | true =>
      obtain ⟨c, hfind⟩ := exists_get_of_check p table hex
      rw [run_present_upd p table c hpc hstate hfind] at h1
      simp only [RunOutcome.ok.injEq] at h1
      have htable : db1.table = updatedTable p c table := by rw [← h1.2]
      have hget2 : get_galera_group_config p db1.table
          = some (syncedRow p c) := by
        rw [htable]
        exact get_updatedTable p table c hfind
      have hnc : (syncedRow p c).comment = p.comment := rfl
      have hnr : (syncedRow p c).reader_hostgroup = p.reader_hostgroup := rfl
      have hrun := run_present_upd p db1.table (syncedRow p c) hpc hstate hget2
      have hch : updChanged p (syncedRow p c) = false := by
        simp [updChanged, hnc, hnr]
      rw [hch, updatedTable_nochange p _ _ hnc hnr,
        updatedDml_nochange p _ hnc hnr] at hrun
      simp only [Bool.false_eq_true, false_and, if_false, ite_false] at hrun
      exact ⟨_, hrun, rfl⟩
  | absent =>
    cases hex : check_galera_group_config p table with
    | false =>
      rw [run_absent_none p false table hpc hstate hex] at h1
      simp only [RunOutcome.ok.injEq] at h1
      have htable : db1.table = table := by rw [← h1.2]
      have hex2 : check_galera_group_config p db1.table = false := by
        rw [htable]
        exact hex
      exact ⟨_, run_absent_none p false db1.table hpc hstate hex2, rfl⟩
    | true =>
      rw [run_absent_del p table hpc hstate hex] at h1
      simp only [RunOutcome.ok.injEq] at h1
      have htable : db1.table = table.filter (fun r => ! matchesWriter p r) := by
        rw [← h1.2]
      have hex2 : check_galera_group_config p db1.table = false := by
        rw [htable]
        exact check_filter_not p table
      exact ⟨_, run_absent_none p false db1.table hpc hstate hex2, rfl⟩

/-- C3 witness: a second run of `pBase` after its insert changes nothing. -/
theorem run_idempotent_for_string_comment_witness :
    pBase.comment ≠ none ∧
    main_run pBase false [] = RunOutcome.ok resIns dbIns ∧
    ∃ r2, main_run pBase false dbIns.table = RunOutcome.ok r2
        { table := dbIns.table, connected := true, dml := [], saves := 0,
          loads := 0 } ∧
      r2.changed = false :=
  ⟨by simp [pBase], rfl,
    run_idempotent_for_string_comment pBase [] resIns dbIns (by simp [pBase]) rfl⟩

/-- C4: for every parameter set, state and starting table (and either check
mode), rows whose `writer_hostgroup` differs from the `writer_hostgroup`
parameter are exactly the same before and after the run. -/
theorem other_rows_never_modified (p : GaleraParams) (cm : Bool)
    (table : List GaleraRow) :
    ((main_run p cm table).finalDb.table).filter (fun row => ! matchesWriter p row)
      = table.filter (fun row => ! matchesWriter p row) := by
  cases hpc : perform_checks p with
  | some m =>
    rw [run_failed p cm table m hpc]
    rfl
  | none =>
    cases hstate : p.state with
    | present =>
      cases hex : check_galera_group_config p table with
      | false =>
        cases cm
        · rw [run_present_new p table hpc hstate hex]
          exact filter_not_append_of_match _ table _ (matchesWriter_newGaleraRow p)
        · rw [run_present_new_check p table hpc hstate hex]
          rfl
      | true =>
        obtain ⟨c, hfind⟩ := exists_get_of_check p table hex
        cases cm
        · rw [run_present_upd p table c hpc hstate hfind]
          exact filter_not_updatedTable p c table
        · rw [run_present_upd_check p table c hpc hstate hfind]
          rfl
    | absent =>
      cases hex : check_galera_group_config p table with
      | false =>
        rw [run_absent_none p cm table hpc hstate hex]
        rfl
      | true =>
        cases cm
        · rw [run_absent_del p table hpc hstate hex]
          exact filter_not_idem _ table
        · rw [run_absent_del_check p table hpc hstate hex]
          rfl

/-- C5: `save_config_to_disk` runs exactly when a change was made, check mode
is off and `save_to_disk` is set, and `load_config_to_runtime` runs exactly
when a change was made, check mode is off and `load_to_runtime` is set; with
no change neither runs. -/
theorem save_load_iff_changed (p : GaleraParams) (cm : Bool)
    (table : List GaleraRow) (r : RunResult) (db : Db)
    (h : main_run p cm table = RunOutcome.ok r db) :
    (0 < db.saves ↔ r.changed = true ∧ cm = false ∧ p.save_to_disk = true) ∧
    (0 < db.loads ↔ r.changed = true ∧ cm = false ∧ p.load_to_runtime = true) ∧
    (r.changed = false → db.saves = 0 ∧ db.loads = 0) := by
  have hpc := ok_implies_checks_none p cm table r db h
  cases hstate : p.state with
  | present =>
    cases hex : check_galera_group_config p table with
    | false =>
      cases cm
      · rw [run_present_new p table hpc hstate hex] at h
        simp only [RunOutcome.ok.injEq] at h
        rw [← h.1, ← h.2]
        cases hs : p.save_to_disk <;> cases hl : p.load_to_runtime <;>
          simp [hs, hl]
      · rw [run_present_new_check p table hpc hstate hex] at h
        simp only [RunOutcome.ok.injEq] at h
        rw [← h.1, ← h.2]
        simp
    | true =>
      obtain ⟨c, hfind⟩ := exists_get_of_check p table hex
      cases cm
      · rw [run_present_upd p table c hpc hstate hfind] at h
        simp only [RunOutcome.ok.injEq] at h
        rw [← h.1, ← h.2]
        cases hch : updChanged p c <;>
          cases hs : p.save_to_disk <;> cases hl : p.load_to_runtime <;>
            simp [hch, hs, hl]
      · rw [run_present_upd_check p table c hpc hstate hfind] at h
        simp only [RunOutcome.ok.injEq] at h
        rw [← h.1, ← h.2]
        simp
  | absent =>
    cases hex : check_galera_group_config p table with
    | false =>
      rw [run_absent_none p cm table hpc hstate hex] at h
      simp only [RunOutcome.ok.injEq] at h
      rw [← h.1, ← h.2]
      simp
    | true =>
      cases cm
      · rw [run_absent_del p table hpc hstate hex] at h
        simp only [RunOutcome.ok.injEq] at h
        rw [← h.1, ← h.2]
        cases hs : p.save_to_disk <;> cases hl : p.load_to_runtime <;>
          simp [hs, hl]
      · rw [run_absent_del_check p table hpc hstate hex] at h
        simp only [RunOutcome.ok.injEq] at h
        rw [← h.1, ← h.2]
        simp

/-- C5 witness: the insert run of `pBase` saved and loaded exactly once. -/
theorem save_load_iff_changed_witness :
    main_run pBase false [] = RunOutcome.ok resIns dbIns ∧
    ((0 < dbIns.saves ↔ resIns.changed = true ∧ false = false ∧
        pBase.save_to_disk = true) ∧
      (0 < dbIns.loads ↔ resIns.changed = true ∧ false = false ∧
        pBase.load_to_runtime = true) ∧
      (resIns.changed = false → dbIns.saves = 0 ∧ dbIns.loads = 0)) :=
  ⟨rfl, save_load_iff_changed pBase false [] resIns dbIns rfl⟩

/-- C6: when `state=present`, no matching row exists and check mode is off,
the run appends exactly the row whose columns are the declared parameters;
its comment is the parameter when the comment is truthy and `''` when the
comment is falsy (`None` or `''`). -/
theorem insert_records_declared_config (p : GaleraParams)
    (table : List GaleraRow) (r : RunResult) (db : Db)
    (h : main_run p false table = RunOutcome.ok r db)
    (hst : p.state = PState.present)
    (hex : check_galera_group_config p table = false) :
    db.table = table ++ [newGaleraRow p] ∧
    (newGaleraRow p).writer_hostgroup = p.writer_hostgroup ∧
    (newGaleraRow p).backup_writer_hostgroup = p.backup_writer_hostgroup ∧
    (newGaleraRow p).reader_hostgroup = p.reader_hostgroup ∧
    (newGaleraRow p).offline_hostgroup = p.offline_hostgroup ∧
    (newGaleraRow p).active = p.active ∧
    (newGaleraRow p).max_writers = p.max_writers ∧
    (newGaleraRow p).writer_is_also_reader = p.writer_is_also_reader ∧
    (newGaleraRow p).max_transactions_behind = p.max_transactions_behind ∧
    (pyTruthy p.comment = true → (newGaleraRow p).comment = p.comment) ∧
    (pyTruthy p.comment = false → (newGaleraRow p).comment = some "") := by
  have hpc := ok_implies_checks_none p false table r db h
  rw [run_present_new p table hpc hst hex] at h
  simp only [RunOutcome.ok.injEq] at h
  refine ⟨by rw [← h.2], rfl, rfl, rfl, rfl, rfl, rfl, rfl, rfl, ?_, ?_⟩
  · intro ht
    cases hc : p.comment with
    | none =>
      rw [hc] at ht
      exact absurd ht (by simp [pyTruthy])
    | some s =>
      rw [newGaleraRow_comment_of_some p s hc]
      exact hc
  · intro ht
    cases hc : p.comment with
    | none => simp [newGaleraRow, hc, pyOrEmpty, pyTruthy]
    | some s =>
      rw [hc] at ht
      have hse : s = "" := by simpa [pyTruthy] using ht
      simp [newGaleraRow, hc, pyOrEmpty_some, hse]

/-- C6 witness: the insert run of `pBase` against the empty table. -/
theorem insert_records_declared_config_witness :
    main_run pBase false [] = RunOutcome.ok resIns dbIns ∧
    dbIns.table = [] ++ [newGaleraRow pBase] ∧
    (newGaleraRow pBase).comment = pBase.comment :=
  ⟨rfl,
    (insert_records_declared_config pBase [] resIns dbIns rfl rfl rfl).1,
    (insert_records_declared_config pBase [] resIns dbIns rfl rfl rfl).2.2.2.2.2.2.2.2.2.1 rfl⟩

/-- C7 counterexample: the module does reject parameter values itself —
`perform_checks`, defined in this very file, fails a negative
`writer_hostgroup` before anything else happens. -/
theorem no_module_side_validation_counterexample :
    perform_checks pNegWriter = some writerHostgroupMsg ∧
    main_run pNegWriter false [] =
      RunOutcome.failed writerHostgroupMsg (initDb []) :=
  ⟨rfl, rfl⟩

/-- C7 amended: the module performs exactly three value checks of its own,
all in `perform_checks` (`writer_hostgroup ≥ 0`, `reader_hostgroup ≥ 0`, and
`reader_hostgroup ≠ writer_hostgroup`); every parameter set passing those
three checks is never rejected by code in this file, and all remaining
argument validation is delegated to the shared helper libraries. -/
theorem perform_checks_is_the_only_module_gate (p : GaleraParams) (cm : Bool)
    (table : List GaleraRow) (h : perform_checks p = none) :
    (0 ≤ p.writer_hostgroup ∧ 0 ≤ p.reader_hostgroup ∧
      p.reader_hostgroup ≠ p.writer_hostgroup) ∧
    ∃ r db, main_run p cm table = RunOutcome.ok r db := by
  constructor
  · unfold perform_checks at h
    split_ifs at h with h1 h2 h3
    exact ⟨h1, not_lt.mp h2, h3⟩
  · cases hstate : p.state with
    | present =>
      cases hex : check_galera_group_config p table with
      | false =>
        cases cm
        · exact ⟨_, _, run_present_new p table h hstate hex⟩
        · exact ⟨_, _, run_present_new_check p table h hstate hex⟩
      | true =>
        obtain ⟨c, hfind⟩ := exists_get_of_check p table hex
        cases cm
        · exact ⟨_, _, run_present_upd p table c h hstate hfind⟩
        · exact ⟨_, _, run_present_upd_check p table c h hstate hfind⟩
    | absent =>
      cases hex : check_galera_group_config p table with
      | false => exact ⟨_, _, run_absent_none p cm table h hstate hex⟩
      | true =>
        cases cm
        · exact ⟨_, _, run_absent_del p table h hstate hex⟩
        · exact ⟨_, _, run_absent_del_check p table h hstate hex⟩

/-- C7 witness: `pBase` passes the three checks and its run succeeds. -/
theorem perform_checks_is_the_only_module_gate_witness :
    perform_checks pBase = none ∧
    ((0 ≤ pBase.writer_hostgroup ∧ 0 ≤ pBase.reader_hostgroup ∧
        pBase.reader_hostgroup ≠ pBase.writer_hostgroup) ∧
      ∃ r db, main_run pBase false [] = RunOutcome.ok r db) :=
  ⟨rfl, perform_checks_is_the_only_module_gate pBase false [] rfl⟩

/-- C8: the module is deterministic — identical parameters, check-mode
setting and identical starting table contents produce identical outcomes
(final table, side effects and result alike). -/
theorem run_deterministic (p : GaleraParams) (cm : Bool)
    (t1 t2 : List GaleraRow) (h : t1 = t2) :
    main_run p cm t1 = main_run p cm t2 := by
  rw [h]

/-- C8 witness: two runs of `pBase` from the empty table coincide. -/
theorem run_deterministic_witness :
    main_run pBase false [] = main_run pBase false [] :=
  run_deterministic pBase false [] [] rfl

/-- C9: when `writer_hostgroup < 0`, `reader_hostgroup < 0` or the two
hostgroups coincide, the run fails with the corresponding `perform_checks`
message before any database connection is attempted, with the table
untouched and no DML, save or load executed. -/
theorem invalid_hostgroups_fail_before_connecting (p : GaleraParams)
    (cm : Bool) (table : List GaleraRow)
    (h : p.writer_hostgroup < 0 ∨ p.reader_hostgroup < 0 ∨
      p.reader_hostgroup = p.writer_hostgroup) :
    ∃ m, perform_checks p = some m ∧
      main_run p cm table = RunOutcome.failed m (initDb table) ∧
      (initDb table).connected = false ∧ (initDb table).table = table ∧
      (initDb table).dml = [] ∧ (initDb table).saves = 0 ∧
      (initDb table).loads = 0 ∧
      (p.writer_hostgroup < 0 → m = writerHostgroupMsg) ∧
      (0 ≤ p.writer_hostgroup → p.reader_hostgroup < 0 →
        m = readerHostgroupMsg) ∧
      (0 ≤ p.writer_hostgroup → 0 ≤ p.reader_hostgroup →
        m = differentHostgroupsMsg) := by
  by_cases hw : 0 ≤ p.writer_hostgroup
  · by_cases hrd : p.reader_hostgroup < 0
    · have hm : perform_checks p = some readerHostgroupMsg := by
        unfold perform_checks
        rw [if_neg (not_not_intro hw), if_pos hrd]
      exact ⟨readerHostgroupMsg, hm, run_failed p cm table _ hm, rfl, rfl, rfl,
        rfl, rfl, fun hlt => absurd hlt (not_lt.mpr hw),
        fun _ _ => rfl, fun _ h0 => absurd hrd (not_lt.mpr h0)⟩
    · have heq : p.reader_hostgroup = p.writer_hostgroup := by
        rcases h with h | h | h
        · exact absurd h (not_lt.mpr hw)
        · exact absurd h hrd
        · exact h
      have hm : perform_checks p = some differentHostgroupsMsg := by
        unfold perform_checks
        rw [if_neg (not_not_intro hw), if_neg hrd, if_pos heq]
      exact ⟨differentHostgroupsMsg, hm, run_failed p cm table _ hm, rfl, rfl,
        rfl, rfl, rfl, fun hlt => absurd hlt (not_lt.mpr hw),
        fun _ hlt => absurd hlt hrd, fun _ _ => rfl⟩
  · have hm : perform_checks p = some writerHostgroupMsg := by
      unfold perform_checks
      rw [if_pos hw]
    exact ⟨writerHostgroupMsg, hm, run_failed p cm table _ hm, rfl, rfl, rfl,
      rfl, rfl, fun _ => rfl, fun h0 => absurd h0 hw,
      fun h0 => absurd h0 hw⟩

/-- C9 witness: `pNegWriter` fails with the writer-hostgroup message. -/
theorem invalid_hostgroups_fail_before_connecting_witness :
    (pNegWriter.writer_hostgroup < 0 ∨ pNegWriter.reader_hostgroup < 0 ∨
      pNegWriter.reader_hostgroup = pNegWriter.writer_hostgroup) ∧
    ∃ m, perform_checks pNegWriter = some m ∧
      main_run pNegWriter false [] = RunOutcome.failed m (initDb []) ∧
      (initDb ([] : List GaleraRow)).connected = false ∧
      (initDb ([] : List GaleraRow)).table = [] ∧
      (initDb ([] : List GaleraRow)).dml = [] ∧
      (initDb ([] : List GaleraRow)).saves = 0 ∧
      (initDb ([] : List GaleraRow)).loads = 0 ∧
      (pNegWriter.writer_hostgroup < 0 → m = writerHostgroupMsg) ∧
      (0 ≤ pNegWriter.writer_hostgroup → pNegWriter.reader_hostgroup < 0 →
        m = readerHostgroupMsg) ∧
      (0 ≤ pNegWriter.writer_hostgroup → 0 ≤ pNegWriter.reader_hostgroup →
        m = differentHostgroupsMsg) :=
  ⟨Or.inl (by decide),
    invalid_hostgroups_fail_before_connecting pNegWriter false []
      (Or.inl (by decide))⟩

/-- C10: in check mode the table is never written (no INSERT, UPDATE or
DELETE), nothing is saved to disk or loaded to runtime, and the table is
unchanged — even though a run may still report `changed=True` (`pBase`
against the empty table does). -/
theorem check_mode_writes_nothing (p : GaleraParams) (table : List GaleraRow) :
    (main_run p true table).finalDb.table = table ∧
    (main_run p true table).finalDb.dml = [] ∧
    (main_run p true table).finalDb.saves = 0 ∧
    (main_run p true table).finalDb.loads = 0 ∧
    (main_run pBase true []).changedFlag = true := by
  have key : (main_run p true table).finalDb.table = table ∧
      (main_run p true table).finalDb.dml = [] ∧
      (main_run p true table).finalDb.saves = 0 ∧
      (main_run p true table).finalDb.loads = 0 := by
    cases hpc : perform_checks p with
    | some m =>
      rw [run_failed p true table m hpc]
      exact ⟨rfl, rfl, rfl, rfl⟩
    | none =>
      cases hstate : p.state with
      | present =>
        cases hex : check_galera_group_config p table with
        | false =>
          rw [run_present_new_check p table hpc hstate hex]
          exact ⟨rfl, rfl, rfl, rfl⟩
        | true =>
          obtain ⟨c, hfind⟩ := exists_get_of_check p table hex
          rw [run_present_upd_check p table c hpc hstate hfind]
          exact ⟨rfl, rfl, rfl, rfl⟩
      | absent =>
        cases hex : check_galera_group_config p table with
        | false =>
          rw [run_absent_none p true table hpc hstate hex]
          exact ⟨rfl, rfl, rfl, rfl⟩
        | true =>
          rw [run_absent_del_check p table hpc hstate hex]
          exact ⟨rfl, rfl, rfl, rfl⟩
  exact ⟨key.1, key.2.1, key.2.2.1, key.2.2.2, by decide⟩

end ProxysqlGalera
